import Mathlib

set_option maxRecDepth 4000

/-!
Verification of the thread/message/persona/sharing persistence layer of the
t3chatclone repository, embedded shallowly from `src/lib/supabase/queries.ts`.

The remote database is modelled as an explicit state (`DB`) holding one list
of rows per table.  Each repository function becomes a pure Lean function from
the state (plus the ambient authenticated user and the nondeterministic inputs
of the original code: random bytes, fresh UUID values, the wall clock) to a
result and a successor state.  Remote-store failures are injected through
explicit `Option StoreError` fault parameters, one per remote call site; the
derived behaviour of a call (row found / not found, duplicate key) comes from
the state itself.  The platform builtins used by the source (`btoa`,
`crypto.subtle.digest("SHA-256", ...)`, the UTF-8 text encoder) are modelled by
executable Lean implementations of their documented behaviour.
-/

namespace T3Chat

/-! ## Base64 (model of the `btoa` builtin) -/

def base64Chars : List Char :=
  "ABCDEFGHIJKLMNOPQRSTUVWXYZabcdefghijklmnopqrstuvwxyz0123456789+/".toList

def b64char (n : Nat) : Char := base64Chars.getD n 'A'

def base64Encode : List Nat → List Char
  | [] => []
  | [b1] => [b64char (b1 / 4), b64char (b1 % 4 * 16), '=', '=']
  | [b1, b2] => [b64char (b1 / 4), b64char (b1 % 4 * 16 + b2 / 16), b64char (b2 % 16 * 4), '=']
  | b1 :: b2 :: b3 :: rest =>
    b64char (b1 / 4) :: b64char (b1 % 4 * 16 + b2 / 16) :: b64char (b2 % 16 * 4 + b3 / 64) ::
      b64char (b3 % 64) :: base64Encode rest

/-- The replacement applied by `generateShareToken` to each base64 character:
`+` becomes `-` and `/` becomes `_` (the two global regex replaces). -/
def b64urlRep (c : Char) : Char := if c == '+' then '-' else if c == '/' then '_' else c

/-- Model of `generateShareToken`: the 16 random bytes produced by
`crypto.getRandomValues` enter as the `randomBytes` argument; the function
base64-encodes them (`btoa`), maps `+` to `-` and `/` to `_`, and strips `=`. -/
def generateShareToken (randomBytes : List Nat) : String :=
  String.mk (((base64Encode randomBytes).map b64urlRep).filter (fun c => c != '='))

def base64urlChars : List Char :=
  "ABCDEFGHIJKLMNOPQRSTUVWXYZabcdefghijklmnopqrstuvwxyz0123456789-_".toList

/-! ## UTF-8 and SHA-256 (models of `TextEncoder.encode` and
`crypto.subtle.digest("SHA-256", ...)`) -/

def utf8EncodeChar (c : Char) : List Nat :=
  let n := c.toNat
  if n < 128 then [n]
  else if n < 2048 then [192 + n / 64, 128 + n % 64]
  else if n < 65536 then [224 + n / 4096, 128 + n / 64 % 64, 128 + n % 64]
  else [240 + n / 262144, 128 + n / 4096 % 64, 128 + n / 64 % 64, 128 + n % 64]

def utf8Encode (s : String) : List Nat := s.data.flatMap utf8EncodeChar

def mask32 (n : Nat) : Nat := n % 4294967296

def add32 (a b : Nat) : Nat := (a + b) % 4294967296

def rotr32 (n w : Nat) : Nat := mask32 ((w >>> n) ||| (w <<< (32 - n)))

def not32 (w : Nat) : Nat := w ^^^ 0xFFFFFFFF

def smallSigma0 (x : Nat) : Nat := rotr32 7 x ^^^ rotr32 18 x ^^^ (x >>> 3)

def smallSigma1 (x : Nat) : Nat := rotr32 17 x ^^^ rotr32 19 x ^^^ (x >>> 10)

def bigSigma0 (x : Nat) : Nat := rotr32 2 x ^^^ rotr32 13 x ^^^ rotr32 22 x

def bigSigma1 (x : Nat) : Nat := rotr32 6 x ^^^ rotr32 11 x ^^^ rotr32 25 x

def chF (x y z : Nat) : Nat := (x &&& y) ^^^ (not32 x &&& z)

def majF (x y z : Nat) : Nat := (x &&& y) ^^^ (x &&& z) ^^^ (y &&& z)

def shaK : List Nat :=
  [1116352408, 1899447441, 3049323471, 3921009573,
   961987163, 1508970993, 2453635748, 2870763221,
   3624381080, 310598401, 607225278, 1426881987,
   1925078388, 2162078206, 2614888103, 3248222580,
   3835390401, 4022224774, 264347078, 604807628,
   770255983, 1249150122, 1555081692, 1996064986,
   2554220882, 2821834349, 2952996808, 3210313671,
   3336571891, 3584528711, 113926993, 338241895,
   666307205, 773529912, 1294757372, 1396182291,
   1695183700, 1986661051, 2177026350, 2456956037,
   2730485921, 2820302411, 3259730800, 3345764771,
   3516065817, 3600352804, 4094571909, 275423344,
   430227734, 506948616, 659060556, 883997877,
   958139571, 1322822218, 1537002063, 1747873779,
   1955562222, 2024104815, 2227730452, 2361852424,
   2428436474, 2756734187, 3204031479, 3329325298]

structure Hash8 where
  a : Nat
  b : Nat
  c : Nat
  d : Nat
  e : Nat
  f : Nat
  g : Nat
  h : Nat

def initH : Hash8 :=
  ⟨1779033703, 3144134277, 1013904242, 2773480762,
   1359893119, 2600822924, 528734635, 1541459225⟩

def lenBytes (n : Nat) : List Nat :=
  [n / 2 ^ 56 % 256, n / 2 ^ 48 % 256, n / 2 ^ 40 % 256, n / 2 ^ 32 % 256,
   n / 2 ^ 24 % 256, n / 2 ^ 16 % 256, n / 2 ^ 8 % 256, n % 256]

def wordBytes (w : Nat) : List Nat :=
  [w / 16777216 % 256, w / 65536 % 256, w / 256 % 256, w % 256]

def shaPad (msg : List Nat) : List Nat :=
  msg ++ 128 :: (List.replicate ((119 - msg.length % 64) % 64) 0 ++ lenBytes (8 * msg.length))

def toBlocks (l : List Nat) : List (List Nat) :=
  (List.range (l.length / 64)).map (fun i => (l.drop (64 * i)).take 64)

def blockWords (block : List Nat) : List Nat :=
  (List.range 16).map (fun i =>
    block.getD (4 * i) 0 * 16777216 + block.getD (4 * i + 1) 0 * 65536 +
      block.getD (4 * i + 2) 0 * 256 + block.getD (4 * i + 3) 0)

def schedule (block : List Nat) : List Nat :=
  (List.range 48).foldl
    (fun w _ =>
      let i := w.length
      w ++ [add32 (add32 (smallSigma1 (w.getD (i - 2) 0)) (w.getD (i - 7) 0))
              (add32 (smallSigma0 (w.getD (i - 15) 0)) (w.getD (i - 16) 0))])
    (blockWords block)

def shaRound (st : Hash8) (k w : Nat) : Hash8 :=
  let t1 := add32 (add32 (add32 st.h (bigSigma1 st.e)) (add32 (chF st.e st.f st.g) k)) w
  let t2 := add32 (bigSigma0 st.a) (majF st.a st.b st.c)
  ⟨add32 t1 t2, st.a, st.b, st.c, add32 st.d t1, st.e, st.f, st.g⟩

def compressBlock (st : Hash8) (block : List Nat) : Hash8 :=
  let w := schedule block
  let s2 := (List.range 64).foldl (fun s t => shaRound s (shaK.getD t 0) (w.getD t 0)) st
  ⟨add32 st.a s2.a, add32 st.b s2.b, add32 st.c s2.c, add32 st.d s2.d,
   add32 st.e s2.e, add32 st.f s2.f, add32 st.g s2.g, add32 st.h s2.h⟩

def sha256Bytes (msg : List Nat) : List Nat :=
  let s2 := (toBlocks (shaPad msg)).foldl compressBlock initH
  wordBytes s2.a ++ wordBytes s2.b ++ wordBytes s2.c ++ wordBytes s2.d ++
    wordBytes s2.e ++ wordBytes s2.f ++ wordBytes s2.g ++ wordBytes s2.h

/-- Model of `hashPassword`: UTF-8 encode the password, SHA-256 digest it,
base64-encode the digest bytes (`btoa`, padding kept). -/
def hashPassword (password : String) : String :=
  String.mk (base64Encode (sha256Bytes (utf8Encode password)))

/-- Model of `verifyPassword`: hash the candidate and compare digests. -/
def verifyPassword (password hash : String) : Bool :=
  hashPassword password == hash

/-! ## The database state

One list of rows per table touched by the embedded operations.  Supabase/
PostgREST errors carry a `code` the source branches on (`PGRST116` for a
single-row miss, `42P01` for a missing relation, `23505` for a duplicate key).
`prefsTableExists = false` models the state in which the `user_preferences`
relation has not been created. -/

structure StoreError where
  code : String
  message : String
deriving DecidableEq, Repr

def pgrst116 : StoreError :=
  ⟨"PGRST116", "JSON object requested, multiple (or no) rows returned"⟩

def dupKeyErr : StoreError :=
  ⟨"23505", "duplicate key value violates unique constraint"⟩

def undefinedTableErr : StoreError :=
  ⟨"42P01", "relation does not exist"⟩

/-- A repository operation either throws the JS `Error("User not authenticated")`
or rethrows a store error object. -/
inductive QErr where
  | notAuthenticated
  | store (e : StoreError)
deriving DecidableEq, Repr

structure ThreadRow where
  id : String
  title : String
  user_id : String
  last_message_at : Option String
deriving DecidableEq, Repr

/-- The attachment object pushed into the message `parts` array by
`createMessage` (source lines 263-272): note it takes `fileSize` from
`attachment.size` and `fileUrl` from `attachment.url`. -/
structure PartAttachment where
  id : Option String
  fileName : String
  fileType : Option String
  fileSize : Nat
  fileUrl : Option String
  thumbnailUrl : Option String
  content : Option String
  extractedText : Option String
deriving DecidableEq, Repr

/-- One fragment of a message `parts` array: the tagged variants the layer
distinguishes (a `file_attachments` fragment versus anything else). -/
inductive Part where
  | text (value : String)
  | fileAttachments (attachments : List PartAttachment)
  | other (tag : String)
deriving DecidableEq, Repr

structure MessageRow where
  id : String
  thread_id : String
  user_id : String
  parts : List Part
  role : String
  content : String
  created_at : String
  updated_at : Option String
deriving DecidableEq, Repr

structure FileAttachmentRow where
  id : String
  message_id : String
  thread_id : String
  user_id : String
  file_name : String
  file_type : String
  file_size : Nat
  file_url : String
  thumbnail_url : Option String
  created_at : String
deriving DecidableEq, Repr

structure ThreadPersonaRow where
  thread_id : String
  persona_id : String
  user_id : String
deriving DecidableEq, Repr

structure PinnedMessageRow where
  id : String
  user_id : String
  thread_id : String
  message_id : String
  note : Option String
deriving DecidableEq, Repr

structure UserPreferencesRow where
  user_id : String
deriving DecidableEq, Repr

structure DB where
  threads : List ThreadRow
  messages : List MessageRow
  fileAttachments : List FileAttachmentRow
  threadPersonas : List ThreadPersonaRow
  pinnedMessages : List PinnedMessageRow
  userPreferences : List UserPreferencesRow
  prefsTableExists : Bool
deriving DecidableEq, Repr

/-- The `UIMessage` payload handed to `createMessage`: the fields the source
reads.  `id`, `parts` and `createdAt` may be absent (JS `undefined`). -/
structure UIMessage where
  id : Option String
  role : String
  content : String
  parts : Option (List Part)
  createdAt : Option String
deriving DecidableEq, Repr

/-- The `FileUploadResult` objects handed to `createMessage`.  The source
reads both `size`/`fileSize` and `url`/`fileUrl` variants, any of which may be
absent. -/
structure FileUploadResult where
  id : Option String
  fileName : String
  fileType : Option String
  size : Option Nat
  fileSize : Option Nat
  url : Option String
  fileUrl : Option String
  thumbnailUrl : Option String
  content : Option String
  extractedText : Option String
deriving DecidableEq, Repr

/-! ## JS truthiness helpers

JS `x || d` on an optional string treats both `undefined`/`null` and the empty
string as falsy. -/

def jsTruthy : Option String → Bool
  | some s => s != ""
  | none => false

def jsOr (x : Option String) (d : String) : String :=
  if jsTruthy x then x.getD d else d

def jsOrNull (x : Option String) : Option String :=
  if jsTruthy x then x else none

/-! ## Shared query primitives -/

/-- Injected remote failure: `some e` makes the call fail with `e` instead of
its state-derived result. -/
def withFault {α : Type} (fault : Option StoreError) (r : Except StoreError α) :
    Except StoreError α :=
  match fault with
  | some e => .error e
  | none => r

def threadKey (threadId userId : String) (t : ThreadRow) : Bool :=
  t.id == threadId && t.user_id == userId

/-- Model of `threads.select().eq("id", threadId).eq("user_id", userId).single()`:
a single-row lookup misses with `PGRST116` unless exactly one row matches. -/
def threadLookup (db : DB) (threadId userId : String) : Except StoreError ThreadRow :=
  match db.threads.filter (threadKey threadId userId) with
  | [t] => .ok t
  | _ => .error pgrst116

/-- Model of `threads.insert(...)`: the primary key on `id` makes an insert of
an existing id fail with a duplicate-key error. -/
def insertThread (db : DB) (t : ThreadRow) : Except StoreError DB :=
  if db.threads.any (fun x => x.id == t.id) then .error dupKeyErr
  else .ok { db with threads := db.threads ++ [t] }

/-! ## createMessage (source lines 207-393) -/

/-- The regex `^[0-9a-f]{8}-[0-9a-f]{4}-[0-9a-f]{4}-[0-9a-f]{4}-[0-9a-f]{12}$/i`:
length 36, dashes at positions 8, 13, 18, 23, hex digits elsewhere. -/
def isHexDigit (c : Char) : Bool :=
  ('0' ≤ c && c ≤ '9') || ('a' ≤ c && c ≤ 'f') || ('A' ≤ c && c ≤ 'F')

def isValidUUID (s : String) : Bool :=
  s.data.length == 36 &&
    (List.range 36).all (fun i =>
      if i == 8 || i == 13 || i == 18 || i == 23 then s.data.getD i ' ' == '-'
      else isHexDigit (s.data.getD i ' '))

/-- Source line 277: `message.id && message.id.match(uuidRegex) ? message.id : uuidv4()`;
the fresh `uuidv4()` value enters as the `fresh` argument. -/
def resolveMessageId (mid : Option String) (fresh : String) : String :=
  match mid with
  | some s => if s != "" && isValidUUID s then s else fresh
  | none => fresh

/-- Source lines 263-272: the attachment object embedded into message parts. -/
def mkPartAttachment (a : FileUploadResult) : PartAttachment :=
  { id := a.id, fileName := a.fileName, fileType := a.fileType, fileSize := a.size.getD 0,
    fileUrl := a.url, thumbnailUrl := a.thumbnailUrl, content := a.content,
    extractedText := a.extractedText }

/-- Source lines 257-274: copy `message.parts` and append a `file_attachments`
part when uploads are present. -/
def updatedPartsOf (message : UIMessage) (fileAtts : Option (List FileUploadResult)) :
    List Part :=
  message.parts.getD [] ++
    (match fileAtts with
     | some atts => if 0 < atts.length then [Part.fileAttachments (atts.map mkPartAttachment)] else []
     | none => [])

/-- The column payload of the `messages.upsert(...)` call (source lines 288-299). -/
structure MessagePayload where
  id : String
  thread_id : String
  user_id : String
  parts : List Part
  role : String
  content : String
  created_at : String
deriving DecidableEq, Repr

/-- The column rewrite the upsert applies to an existing row with the same id
(the unsupplied `updated_at` column keeps its value). -/
def applyMessagePayload (p : MessagePayload) (m : MessageRow) : MessageRow :=
  { m with thread_id := p.thread_id, user_id := p.user_id, parts := p.parts,
           role := p.role, content := p.content, created_at := p.created_at }

/-- The fresh row the upsert inserts when no row with the id exists. -/
def newMessageRow (p : MessagePayload) : MessageRow :=
  { id := p.id, thread_id := p.thread_id, user_id := p.user_id, parts := p.parts,
    role := p.role, content := p.content, created_at := p.created_at, updated_at := none }

/-- The row-level effect of `messages.upsert(payload, onConflict: id,
ignoreDuplicates: false)`: replace the provided columns of the row with that
id when present, insert otherwise. -/
def upsertMessagesList (l : List MessageRow) (p : MessagePayload) : List MessageRow :=
  if l.any (fun m => m.id == p.id) then
    l.map (fun m => if m.id == p.id then applyMessagePayload p m else m)
  else
    l ++ [newMessageRow p]

def upsertMessage (db : DB) (p : MessagePayload) : DB :=
  { db with messages := upsertMessagesList db.messages p }

/-- Source lines 332-339: `!attachment.fileUrl && !attachment.url` skips the
attachment; kept ones are those with at least one truthy URL. -/
def attHasUrl (a : FileUploadResult) : Bool := jsTruthy a.fileUrl || jsTruthy a.url

/-- Source lines 340-357: the `file_attachments` row built for one kept
attachment; `resolvedId` is `attachment.id || uuidv4()`. -/
def mkAttachmentRow (threadId messageId userId now resolvedId : String)
    (a : FileUploadResult) : FileAttachmentRow :=
  { id := resolvedId, message_id := messageId, thread_id := threadId, user_id := userId,
    file_name := a.fileName, file_type := jsOr a.fileType "text/plain",
    file_size := a.fileSize.getD 0, file_url := jsOr a.fileUrl (jsOr a.url ""),
    thumbnail_url := jsOrNull a.thumbnailUrl, created_at := now }

/-- Model of the batch `file_attachments.insert(rows)`: a single multi-row
insert fails atomically on any duplicate id. -/
def insertAttachments (db : DB) (rows : List FileAttachmentRow) : Except StoreError DB :=
  if rows.any (fun r => db.fileAttachments.any (fun x => x.id == r.id)) = true
      ∨ ¬ (rows.map (fun r => r.id)).Nodup then
    .error dupKeyErr
  else .ok { db with fileAttachments := db.fileAttachments ++ rows }

/-- Source lines 331-357: the rows built for the batch attachment insert; the
per-attachment fresh `uuidv4()` values enter as `freshAttId`, indexed by
position in the filtered list. -/
def attachmentRowsOf (threadId messageId userId now : String)
    (atts : List FileUploadResult) (freshAttId : Nat → String) : List FileAttachmentRow :=
  ((atts.filter attHasUrl).enum).map
    (fun p => mkAttachmentRow threadId messageId userId now (jsOr p.2.id (freshAttId p.1)) p.2)

/-- Source lines 317-378: filter attachments with a URL, build rows, insert
them; any failure in this section is caught and swallowed (the message was
already created), so the state on failure is the incoming state. -/
def insertMessageAttachments (db : DB) (threadId messageId userId : String)
    (fileAtts : Option (List FileUploadResult)) (freshAttId : Nat → String) (now : String)
    (fault : Option StoreError) : DB :=
  match fileAtts with
  | none => db
  | some atts =>
    if 0 < atts.length then
      let toInsert := attachmentRowsOf threadId messageId userId now atts freshAttId
      if 0 < toInsert.length then
        match fault with
        | some _ => db
        | none =>
          match insertAttachments db toInsert with
          | .ok db2 => db2
          | .error _ => db
      else db
    else db

/-- The row-level effect of `threads.update({last_message_at}).eq("id", threadId)`. -/
def touchThreadsList (l : List ThreadRow) (threadId ts : String) : List ThreadRow :=
  l.map (fun t => if t.id == threadId then { t with last_message_at := some ts } else t)

/-- Source lines 380-390: touch the parent thread's last-activity timestamp. -/
def touchThread (db : DB) (threadId ts : String) : DB :=
  { db with threads := touchThreadsList db.threads threadId ts }

/-- One injected fault slot per remote call of `createMessage`, in call order. -/
structure Faults where
  threadCheck : Option StoreError
  threadInsert : Option StoreError
  messageUpsert : Option StoreError
  attachmentInsert : Option StoreError
  threadUpdate : Option StoreError

def noFaults : Faults := ⟨none, none, none, none, none⟩

/-- The tail of `createMessage` after the thread-existence guard: id
normalization, parts update, message upsert, attachment inserts (non-fatal),
thread timestamp touch. -/
def createMessageRest (db : DB) (userId threadId : String) (message : UIMessage)
    (fileAtts : Option (List FileUploadResult)) (freshMsgId : String)
    (freshAttId : Nat → String) (now : String) (f : Faults) : Except QErr Unit × DB :=
  let messageId := resolveMessageId message.id freshMsgId
  match f.messageUpsert with
  | some e => (.error (.store e), db)
  | none =>
    let db2 := upsertMessage db
      { id := messageId, thread_id := threadId, user_id := userId,
        parts := updatedPartsOf message fileAtts, role := message.role,
        content := message.content, created_at := message.createdAt.getD now }
    let db3 := insertMessageAttachments db2 threadId messageId userId fileAtts freshAttId now
      f.attachmentInsert
    match f.threadUpdate with
    | some e => (.error (.store e), db3)
    | none => (.ok (), touchThread db3 threadId (message.createdAt.getD now))

/-- Model of `createMessage` (source lines 207-393).  Returns the thrown error
or unit, together with the store state after the call (partial effects of a
failing call persist: the store is not transactional). -/
def createMessage (db : DB) (auth : Option String) (threadId : String) (message : UIMessage)
    (fileAtts : Option (List FileUploadResult)) (freshMsgId : String)
    (freshAttId : Nat → String) (now : String) (f : Faults) : Except QErr Unit × DB :=
  match auth with
  | none => (.error .notAuthenticated, db)
  | some userId =>
    match withFault f.threadCheck (threadLookup db threadId userId) with
    | .ok _ => createMessageRest db userId threadId message fileAtts freshMsgId freshAttId now f
    | .error e =>
      if e.code == "PGRST116" then
        match withFault f.threadInsert
            (insertThread db
              { id := threadId, title := "New Chat", user_id := userId,
                last_message_at := none }) with
        | .ok db1 =>
          createMessageRest db1 userId threadId message fileAtts freshMsgId freshAttId now f
        | .error ce => (.error (.store ce), db)
      else (.error (.store e), db)

/-! ## setThreadPersona (source lines 1018-1067) -/

structure PersonaFaults where
  threadCheck : Option StoreError
  threadInsert : Option StoreError
  personaDelete : Option StoreError
  personaInsert : Option StoreError

def noPersonaFaults : PersonaFaults := ⟨none, none, none, none⟩

def personaKey (threadId userId : String) (r : ThreadPersonaRow) : Bool :=
  r.thread_id == threadId && r.user_id == userId

/-- The tail of `setThreadPersona` after the thread-existence guard: the
delete result is not checked by the source (line 1052), so a failing delete is
silently ignored; the insert returns the new row. -/
def setThreadPersonaRest (db : DB) (userId threadId personaId : String)
    (f : PersonaFaults) : Except QErr ThreadPersonaRow × DB :=
  let db1 :=
    match f.personaDelete with
    | some _ => db
    | none =>
      { db with threadPersonas := db.threadPersonas.filter (fun r => !personaKey threadId userId r) }
  match f.personaInsert with
  | some e => (.error (.store e), db1)
  | none =>
    (.ok ⟨threadId, personaId, userId⟩,
     { db1 with threadPersonas := db1.threadPersonas ++ [⟨threadId, personaId, userId⟩] })

/-- Model of `setThreadPersona`: same thread-existence guard as
`createMessage`, then delete-then-insert of the persona row. -/
def setThreadPersona (db : DB) (auth : Option String) (threadId personaId : String)
    (f : PersonaFaults) : Except QErr ThreadPersonaRow × DB :=
  match auth with
  | none => (.error .notAuthenticated, db)
  | some userId =>
    match withFault f.threadCheck (threadLookup db threadId userId) with
    | .ok _ => setThreadPersonaRest db userId threadId personaId f
    | .error e =>
      if e.code == "PGRST116" then
        match withFault f.threadInsert
            (insertThread db
              { id := threadId, title := "New Chat", user_id := userId,
                last_message_at := none }) with
        | .ok db1 => setThreadPersonaRest db1 userId threadId personaId f
        | .error ce => (.error (.store ce), db)
      else (.error (.store e), db)

/-! ## updateMessageInDatabase (source lines 1167-1316)

The whole body is wrapped in a try/catch that returns `false`, so the
operation never throws: it returns the updated state and a boolean. -/

structure UpdFaults where
  check : Option StoreError
  thread : Option StoreError
  update : Option StoreError
  verifyFault : Option StoreError
  verifyStale : Option String

def noUpdFaults : UpdFaults := ⟨none, none, none, none, none⟩

/-- Model of `messages.select(...).eq("id", messageId).single()`. -/
def messageLookup (db : DB) (messageId : String) : Except StoreError MessageRow :=
  match db.messages.filter (fun m => m.id == messageId) with
  | [m] => .ok m
  | _ => .error pgrst116

def applyMessageUpdate (db : DB) (pred : MessageRow → Bool) (newContent now : String) : DB :=
  { db with messages := db.messages.map (fun m =>
      if pred m then { m with content := newContent, updated_at := some now } else m) }

/-- The scoped update plus the verification re-read (source lines 1218-1311):
update rows matching `pred`, fail on a store error or zero updated rows, then
re-read the row by id and compare contents.  `verifyStale` injects a re-read
that returns stale content (the condition the verification defends against). -/
def updateAndVerify (db : DB) (messageId newContent now : String) (pred : MessageRow → Bool)
    (f : UpdFaults) : DB × Bool :=
  match f.update with
  | some _ => (db, false)
  | none =>
    let db2 := applyMessageUpdate db pred newContent now
    let updatedRows := db2.messages.filter pred
    if updatedRows.length == 0 then (db2, false)
    else
      match f.verifyFault with
      | some _ => (db2, false)
      | none =>
        match f.verifyStale with
        | some stale => (db2, stale == newContent)
        | none =>
          match messageLookup db2 messageId with
          | .error _ => (db2, false)
          | .ok m2 => (db2, m2.content == newContent)

/-- Model of `updateMessageInDatabase`: owner check (direct ownership for any
message, thread ownership for assistant messages), scoped update, post-write
verification; every failure returns `false` rather than throwing. -/
def updateMessageInDatabase (db : DB) (auth : Option String)
    (messageId newContent now : String) (f : UpdFaults) : DB × Bool :=
  match auth with
  | none => (db, false)
  | some userId =>
    match withFault f.check (messageLookup db messageId) with
    | .error _ => (db, false)
    | .ok m =>
      let isUserMessage := m.user_id == userId
      let isAssistantMessage := m.role == "assistant"
      if isUserMessage then
        updateAndVerify db messageId newContent now
          (fun r => r.id == messageId && r.user_id == userId) f
      else if isAssistantMessage then
        match withFault f.thread (threadLookup db m.thread_id userId) with
        | .error _ => (db, false)
        | .ok _ =>
          updateAndVerify db messageId newContent now
            (fun r => r.id == messageId && r.thread_id == m.thread_id) f
      else (db, false)

/-! ## getUserPreferences (source lines 1319-1346) -/

/-- The `user_preferences` single-row query: a missing relation fails with
`42P01` whatever else holds; otherwise the injected fault or the derived
single-row result. -/
def prefsQuery (db : DB) (userId : String) (fault : Option StoreError) :
    Except StoreError UserPreferencesRow :=
  if !db.prefsTableExists then .error undefinedTableErr
  else
    withFault fault
      (match db.userPreferences.filter (fun r => r.user_id == userId) with
       | [r] => .ok r
       | _ => .error pgrst116)

/-- Model of `getUserPreferences`.  The source branches on the error code
(`PGRST116` falls through to `data || null`, `42P01` returns null, anything
else is rethrown) but the rethrow happens inside the function's own
try/catch, whose handler returns null — so every error path yields `.ok none`. -/
def getUserPreferences (db : DB) (auth : Option String) (fault : Option StoreError) :
    Except QErr (Option UserPreferencesRow) :=
  match auth with
  | none => .error .notAuthenticated
  | some userId =>
    match prefsQuery db userId fault with
    | .ok row => .ok (some row)
    | .error e =>
      if e.code != "PGRST116" then
        if e.code == "42P01" then .ok none
        else .ok none
      else .ok none

/-! ## isPinned (source lines 999-1015) -/

def pinnedLookup (db : DB) (userId threadId messageId : String) :
    Except StoreError PinnedMessageRow :=
  match db.pinnedMessages.filter
      (fun r => r.user_id == userId && r.thread_id == threadId && r.message_id == messageId) with
  | [r] => .ok r
  | _ => .error pgrst116

/-- Model of `isPinned`: a missing session returns `false` (not an error), a
`PGRST116` miss is absorbed into `false`, any other store error is rethrown. -/
def isPinned (db : DB) (auth : Option String) (threadId messageId : String)
    (fault : Option StoreError) : Except QErr Bool :=
  match auth with
  | none => .ok false
  | some userId =>
    match withFault fault (pinnedLookup db userId threadId messageId) with
    | .ok _ => .ok true
    | .error e => if e.code != "PGRST116" then .error (.store e) else .ok false

/-! ## Auxiliary definitions used only in statements and proofs -/

/-- An infinite family of pairwise distinct passwords. -/
def strOfNat (n : Nat) : String := String.mk (List.replicate n 'a')

/-- The digest of a password, packed into a finite codomain. -/
def digestFin (s : String) (i : Fin 32) : Fin 256 :=
  ⟨(sha256Bytes (utf8Encode s)).getD i.val 0 % 256, Nat.mod_lt _ (by omega)⟩

/-! # Theorems -/

/-! ## General list helpers -/

theorem filter_map_of_pred_inv {α : Type} (f : α → α) (p : α → Bool) (l : List α)
    (h : ∀ a, p (f a) = p a) : (l.map f).filter p = (l.filter p).map f := by
  induction l with
  | nil => rfl
  | cons a t ih =>
    simp only [List.map_cons, List.filter_cons, h a]
    cases hp : p a <;> simp [hp, ih]

/-! ## C10 -/

/-- C10: isPinned never throws on missing authentication or a missing row:
with no session it returns false (for any store behaviour), and with no
matching pinned row the not-found error is absorbed into false. -/
theorem isPinned_no_throw_spec :
    (∀ (db : DB) (threadId messageId : String) (fault : Option StoreError),
        isPinned db none threadId messageId fault = .ok false) ∧
    (∀ (db : DB) (u threadId messageId : String),
        db.pinnedMessages.filter
            (fun r => r.user_id == u && r.thread_id == threadId && r.message_id == messageId)
          = [] →
        isPinned db (some u) threadId messageId none = .ok false) := by
  constructor
  · intro db t m fa
    rfl
  · intro db u t m h
    simp [isPinned, withFault, pinnedLookup, h, pgrst116]

theorem isPinned_no_throw_spec_witness :
    isPinned ⟨[], [], [], [], [], [], true⟩ none "t1" "m1" (some ⟨"XX000", "boom"⟩) = .ok false ∧
    isPinned ⟨[], [], [], [], [], [], true⟩ (some "u1") "t1" "m1" none = .ok false :=
  ⟨isPinned_no_throw_spec.1 ⟨[], [], [], [], [], [], true⟩ "t1" "m1" (some ⟨"XX000", "boom"⟩),
   isPinned_no_throw_spec.2 ⟨[], [], [], [], [], [], true⟩ "u1" "t1" "m1" rfl⟩

/-! ## C8 -/

/-- C8 (amended): getUserPreferences translates a single-row miss to null and
the missing-relation condition (42P01) to null without throwing; any other
store error is caught by the function's own try/catch as well, so it is
logged and null is returned rather than the error propagating. -/
theorem getUserPreferences_null_spec :
    (∀ (db : DB) (u : String), db.prefsTableExists = true →
        db.userPreferences.filter (fun r => r.user_id == u) = [] →
        getUserPreferences db (some u) none = .ok none) ∧
    (∀ (db : DB) (u : String), db.prefsTableExists = false →
        getUserPreferences db (some u) none = .ok none) ∧
    (∀ (db : DB) (u : String) (e : StoreError),
        getUserPreferences db (some u) (some e) = .ok none) := by
  refine ⟨?_, ?_, ?_⟩
  · intro db u hex hfil
    simp [getUserPreferences, prefsQuery, withFault, hex, hfil, pgrst116]
  · intro db u hex
    simp [getUserPreferences, prefsQuery, hex, undefinedTableErr]
  · intro db u e
    cases hex : db.prefsTableExists <;>
      simp [getUserPreferences, prefsQuery, withFault, hex, undefinedTableErr, ite_self]

theorem getUserPreferences_null_spec_witness :
    getUserPreferences ⟨[], [], [], [], [], [], true⟩ (some "u1") none = .ok none ∧
    getUserPreferences ⟨[], [], [], [], [], [], false⟩ (some "u1") none = .ok none :=
  ⟨getUserPreferences_null_spec.1 ⟨[], [], [], [], [], [], true⟩ "u1" rfl rfl,
   getUserPreferences_null_spec.2.1 ⟨[], [], [], [], [], [], false⟩ "u1" rfl⟩

/-- C8 counterexample: with the preferences relation present and a store
error that is neither a not-found nor a missing-relation condition, the
operation returns null instead of propagating the error as the claim states. -/
theorem getUserPreferences_swallow_cex :
    getUserPreferences ⟨[], [], [], [], [], [], true⟩ (some "u1") (some ⟨"XX000", "boom"⟩)
        = .ok none ∧
    getUserPreferences ⟨[], [], [], [], [], [], true⟩ (some "u1") (some ⟨"XX000", "boom"⟩)
        ≠ .error (.store ⟨"XX000", "boom"⟩) := by
  constructor
  · rfl
  · intro h
    have h2 : (Except.ok none : Except QErr (Option UserPreferencesRow))
        = .error (.store ⟨"XX000", "boom"⟩) := h
    exact Except.noConfusion h2

/-! ## C4 -/

/-- C4: when the caller neither owns the target message nor, for an
assistant-authored message, its parent thread, updateMessageInDatabase
returns false without throwing and the state (hence the stored content) is
unchanged; and when the update is applied but the verification re-read
returns content different from the written content, the operation returns
false. -/
theorem updateMessageInDatabase_permission_spec :
    (∀ (db : DB) (u messageId newContent now : String) (m : MessageRow),
        db.messages.filter (fun r => r.id == messageId) = [m] →
        m.user_id ≠ u →
        (m.role = "assistant" → db.threads.filter (threadKey m.thread_id u) = []) →
        updateMessageInDatabase db (some u) messageId newContent now noUpdFaults = (db, false)) ∧
    (∀ (db : DB) (u messageId newContent now stale : String) (m : MessageRow),
        db.messages.filter (fun r => r.id == messageId) = [m] →
        m.user_id = u →
        stale ≠ newContent →
        (updateMessageInDatabase db (some u) messageId newContent now
          ⟨none, none, none, none, some stale⟩).2 = false) := by
  constructor
  · intro db u mid nc now m hfil hne hth
    by_cases hrole : m.role = "assistant"
    · have hth' := hth hrole
      simp [updateMessageInDatabase, withFault, noUpdFaults, messageLookup, hfil,
        threadLookup, hth', hne, hrole, pgrst116]
    · simp [updateMessageInDatabase, withFault, noUpdFaults, messageLookup, hfil, hne, hrole]
  · intro db u mid nc now stale m hfil hu hne
    simp [updateMessageInDatabase, withFault, messageLookup, hfil, hu, updateAndVerify,
      applyMessageUpdate, apply_ite, hne, ite_self]

theorem updateMessageInDatabase_permission_spec_witness :
    updateMessageInDatabase
        ⟨[⟨"t1", "T", "u2", none⟩], [⟨"m1", "t1", "u2", [], "assistant", "orig", "c", none⟩],
         [], [], [], [], true⟩
        (some "u1") "m1" "new" "now" noUpdFaults
      = (⟨[⟨"t1", "T", "u2", none⟩], [⟨"m1", "t1", "u2", [], "assistant", "orig", "c", none⟩],
          [], [], [], [], true⟩, false) ∧
    (updateMessageInDatabase
        ⟨[], [⟨"m1", "t1", "u1", [], "user", "orig", "c", none⟩], [], [], [], [], true⟩
        (some "u1") "m1" "new" "now" ⟨none, none, none, none, some "orig"⟩).2 = false :=
  ⟨updateMessageInDatabase_permission_spec.1 _ "u1" "m1" "new" "now"
      ⟨"m1", "t1", "u2", [], "assistant", "orig", "c", none⟩ rfl (by decide) (fun _ => rfl),
   updateMessageInDatabase_permission_spec.2 _ "u1" "m1" "new" "now" "orig"
      ⟨"m1", "t1", "u1", [], "user", "orig", "c", none⟩ rfl rfl (by decide)⟩

/-! ## C6 -/

theorem b64char_mem (n : Nat) : b64char n ∈ base64Chars := by
  unfold b64char
  rcases Nat.lt_or_ge n base64Chars.length with h | h
  · rw [List.getD_eq_getElem _ _ h]
    exact List.getElem_mem h
  · rw [List.getD_eq_default _ _ h]
    decide

theorem b64urlRep_spec :
    ∀ c ∈ base64Chars, b64urlRep c ∈ base64urlChars ∧ b64urlRep c ≠ '+' ∧
      b64urlRep c ≠ '/' ∧ b64urlRep c ≠ '=' := by decide

theorem rep_b64char_ne_pad (n : Nat) : (b64urlRep (b64char n) != '=') = true := by
  have h := b64urlRep_spec (b64char n) (b64char_mem n)
  simpa [bne_iff_ne] using h.2.2.2

theorem base64Encode_mem (bs : List Nat) :
    ∀ c ∈ base64Encode bs, c ∈ base64Chars ∨ c = '=' := by
  induction bs using base64Encode.induct with
  | case1 => simp [base64Encode]
  | case2 b1 =>
    intro c hc
    simp [base64Encode] at hc
    rcases hc with rfl | rfl | rfl
    · exact .inl (b64char_mem _)
    · exact .inl (b64char_mem _)
    · exact .inr rfl
  | case3 b1 b2 =>
    intro c hc
    simp [base64Encode] at hc
    rcases hc with rfl | rfl | rfl | rfl
    · exact .inl (b64char_mem _)
    · exact .inl (b64char_mem _)
    · exact .inl (b64char_mem _)
    · exact .inr rfl
  | case4 b1 b2 b3 rest ih =>
    intro c hc
    simp only [base64Encode, List.mem_cons] at hc
    rcases hc with rfl | rfl | rfl | rfl | hc
    · exact .inl (b64char_mem _)
    · exact .inl (b64char_mem _)
    · exact .inl (b64char_mem _)
    · exact .inl (b64char_mem _)
    · exact ih c hc

theorem rep_eq_pad : (b64urlRep '=' != '=') = false := by decide

theorem tokenChars_length (bs : List Nat) (h : bs.length % 3 = 1) :
    (((base64Encode bs).map b64urlRep).filter (fun c => c != '=')).length
      = bs.length / 3 * 4 + 2 := by
  induction bs using base64Encode.induct with
  | case1 => simp at h
  | case2 b1 =>
    simp [base64Encode, List.filter_cons, rep_b64char_ne_pad, rep_eq_pad]
  | case3 b1 b2 => simp at h
  | case4 b1 b2 b3 rest ih =>
    have h3 : rest.length % 3 = 1 := by
      simp only [List.length_cons] at h
      omega
    have hrec := ih h3
    simp only [base64Encode, List.map_cons, List.filter_cons, rep_b64char_ne_pad, if_true,
      List.length_cons, List.length_cons] at hrec ⊢
    omega

/-- C6: for every 16-byte input, the share token is exactly 22 characters,
all drawn from the base64url alphabet, with no plus, slash or equals
characters. -/
theorem generateShareToken_spec (bytes : List Nat) (hlen : bytes.length = 16)
    (hbytes : ∀ b ∈ bytes, b < 256) :
    (generateShareToken bytes).length = 22 ∧
    ∀ c ∈ (generateShareToken bytes).data,
      c ∈ base64urlChars ∧ c ≠ '+' ∧ c ≠ '/' ∧ c ≠ '=' := by
  constructor
  · have h := tokenChars_length bytes (by omega)
    rw [hlen] at h
    simpa [generateShareToken, String.length] using h
  · intro c hc
    have hc2 : c ∈ ((base64Encode bytes).map b64urlRep).filter (fun c => c != '=') := hc
    have hmem := List.mem_of_mem_filter hc2
    have hne := List.of_mem_filter hc2
    obtain ⟨x, hx, rfl⟩ := List.mem_map.mp hmem
    rcases base64Encode_mem bytes x hx with hxb | rfl
    · exact b64urlRep_spec x hxb
    · simp [b64urlRep] at hne

theorem generateShareToken_spec_witness :
    (List.range 16).length = 16 ∧ (∀ b ∈ List.range 16, b < 256) ∧
    (generateShareToken (List.range 16)).length = 22 :=
  ⟨by decide, by decide,
   (generateShareToken_spec (List.range 16) (by decide) (by decide)).1⟩

/-! ## C7 -/

theorem sha256Bytes_length (msg : List Nat) : (sha256Bytes msg).length = 32 := by
  simp [sha256Bytes, wordBytes]

theorem mem_wordBytes_lt (b w : Nat) (h : b ∈ wordBytes w) : b < 256 := by
  simp [wordBytes] at h
  rcases h with rfl | rfl | rfl | rfl <;> omega

theorem sha256Bytes_lt (msg : List Nat) : ∀ b ∈ sha256Bytes msg, b < 256 := by
  intro b hb
  simp only [sha256Bytes, List.mem_append] at hb
  rcases hb with ((((((hb | hb) | hb) | hb) | hb) | hb) | hb) | hb <;>
    exact mem_wordBytes_lt _ _ hb

theorem sha256Bytes_ext (m1 m2 : List Nat)
    (h : ∀ i : Fin 32,
        (sha256Bytes m1).getD i.val 0 % 256 = (sha256Bytes m2).getD i.val 0 % 256) :
    sha256Bytes m1 = sha256Bytes m2 := by
  have hl1 : (sha256Bytes m1).length = 32 := sha256Bytes_length m1
  have hl2 : (sha256Bytes m2).length = 32 := sha256Bytes_length m2
  apply List.ext_get (by rw [hl1, hl2])
  intro n h1 h2
  have hn : n < 32 := by rw [hl1] at h1; exact h1
  have hi := h ⟨n, hn⟩
  rw [List.getD_eq_getElem _ _ h1, List.getD_eq_getElem _ _ h2,
    Nat.mod_eq_of_lt (sha256Bytes_lt m1 _ (List.getElem_mem h1)),
    Nat.mod_eq_of_lt (sha256Bytes_lt m2 _ (List.getElem_mem h2))] at hi
  simpa [List.get_eq_getElem] using hi

/-- C7 counterexample: SHA-256 maps the infinite space of passwords into a
finite digest space, so two distinct passwords collide and verifyPassword
accepts the wrong one; the unconditional distinctness clause of the claim is
therefore false for this code. -/
theorem verifyPassword_not_injective_cex :
    ¬ (∀ p p2 : String, p ≠ p2 → verifyPassword p2 (hashPassword p) = false) := by
  intro hclaim
  obtain ⟨n, m, hnm, hfeq⟩ :=
    Finite.exists_ne_map_eq_of_infinite (fun k : Nat => digestFin (strOfNat k))
  have hsha : sha256Bytes (utf8Encode (strOfNat n)) = sha256Bytes (utf8Encode (strOfNat m)) := by
    apply sha256Bytes_ext
    intro i
    have hv := congrFun hfeq i
    simpa [digestFin, Fin.ext_iff] using hv
  have hhash : hashPassword (strOfNat n) = hashPassword (strOfNat m) := by
    unfold hashPassword
    rw [hsha]
  have hne : strOfNat n ≠ strOfNat m := by
    intro he
    apply hnm
    have hdata : List.replicate n 'a' = List.replicate m 'a' := congrArg String.data he
    have hlen := congrArg List.length hdata
    simpa using hlen
  have hfalse := hclaim (strOfNat n) (strOfNat m) hne
  simp only [verifyPassword] at hfalse
  rw [hhash] at hfalse
  simp at hfalse

/-- C7 (amended): hashPassword is deterministic, verifyPassword accepts the
original password, and verifyPassword rejects a second password whenever its
digest differs from that of the first; distinctness cannot hold for every
pair of distinct passwords because SHA-256 has collisions on the unbounded
password space. -/
theorem hashPassword_verify_spec :
    (∀ p : String, hashPassword p = hashPassword p) ∧
    (∀ p : String, verifyPassword p (hashPassword p) = true) ∧
    (∀ p p2 : String, hashPassword p2 ≠ hashPassword p →
        verifyPassword p2 (hashPassword p) = false) := by
  refine ⟨fun p => rfl, fun p => ?_, fun p p2 h => ?_⟩
  · simp [verifyPassword]
  · simp [verifyPassword, beq_eq_false_iff_ne, h]

theorem hashPassword_verify_spec_witness :
    verifyPassword "a" (hashPassword "a") = true ∧
    hashPassword "b" ≠ hashPassword "a" ∧
    verifyPassword "b" (hashPassword "a") = false :=
  ⟨hashPassword_verify_spec.2.1 "a", by decide,
   hashPassword_verify_spec.2.2 "a" "b" (by decide)⟩

/-! ## C5 -/

theorem setThreadPersonaRest_eq (db : DB) (u threadId p : String) :
    setThreadPersonaRest db u threadId p noPersonaFaults =
      (.ok ⟨threadId, p, u⟩,
       { db with threadPersonas :=
           db.threadPersonas.filter (fun r => !personaKey threadId u r) ++ [⟨threadId, p, u⟩] }) :=
  rfl

theorem filter_after_persona_delete (l : List ThreadPersonaRow) (threadId u p : String) :
    ((l.filter (fun r => !personaKey threadId u r)) ++
        [(⟨threadId, p, u⟩ : ThreadPersonaRow)]).filter (personaKey threadId u)
      = [⟨threadId, p, u⟩] := by
  rw [List.filter_append, List.filter_filter]
  simp [personaKey]

theorem threads_filter_nil (l : List ThreadRow) (threadId u : String)
    (hno : ∀ t ∈ l, t.id ≠ threadId) : l.filter (threadKey threadId u) = [] := by
  rw [List.filter_eq_nil_iff]
  intro t ht
  simp [threadKey, hno t ht]

theorem threads_any_false (l : List ThreadRow) (threadId : String)
    (hno : ∀ t ∈ l, t.id ≠ threadId) : (l.any fun x => x.id == threadId) = false := by
  rw [List.any_eq_false]
  intro t ht
  simp [hno t ht]

theorem setThreadPersona_exists_case (db : DB) (u threadId p : String) (t0 : ThreadRow)
    (hex : db.threads.filter (threadKey threadId u) = [t0]) :
    setThreadPersona db (some u) threadId p noPersonaFaults
      = setThreadPersonaRest db u threadId p noPersonaFaults := by
  simp [setThreadPersona, withFault, noPersonaFaults, threadLookup, hex]

theorem setThreadPersona_new_case (db : DB) (u threadId p : String)
    (hno : ∀ t ∈ db.threads, t.id ≠ threadId) :
    setThreadPersona db (some u) threadId p noPersonaFaults
      = setThreadPersonaRest
          { db with threads := db.threads ++ [⟨threadId, "New Chat", u, none⟩] }
          u threadId p noPersonaFaults := by
  simp [setThreadPersona, withFault, noPersonaFaults, threadLookup,
    threads_filter_nil db.threads threadId u hno, pgrst116, insertThread,
    threads_any_false db.threads threadId hno]

theorem setThreadPersona_single (db : DB) (u threadId p : String)
    (hthread : (∃ t0, db.threads.filter (threadKey threadId u) = [t0]) ∨
      (∀ t ∈ db.threads, t.id ≠ threadId)) :
    (setThreadPersona db (some u) threadId p noPersonaFaults).1 = .ok ⟨threadId, p, u⟩ ∧
    ((setThreadPersona db (some u) threadId p noPersonaFaults).2.threadPersonas.filter
        (personaKey threadId u)) = [⟨threadId, p, u⟩] ∧
    (∃ t1, (setThreadPersona db (some u) threadId p noPersonaFaults).2.threads.filter
        (threadKey threadId u) = [t1]) := by
  rcases hthread with ⟨t0, hex⟩ | hno
  · rw [setThreadPersona_exists_case db u threadId p t0 hex, setThreadPersonaRest_eq]
    exact ⟨rfl, filter_after_persona_delete _ _ _ _, ⟨t0, hex⟩⟩
  · rw [setThreadPersona_new_case db u threadId p hno, setThreadPersonaRest_eq]
    have hfil2 : (db.threads ++ [(⟨threadId, "New Chat", u, none⟩ : ThreadRow)]).filter
        (threadKey threadId u) = [⟨threadId, "New Chat", u, none⟩] := by
      rw [List.filter_append, threads_filter_nil db.threads threadId u hno]
      simp [threadKey]
    exact ⟨rfl, filter_after_persona_delete _ _ _ _, ⟨⟨threadId, "New Chat", u, none⟩, hfil2⟩⟩

/-- C5: a successful setThreadPersona deletes any prior persona row for the
(thread, user) pair before inserting, so exactly one row remains for the pair
and it carries the supplied persona; setting twice leaves exactly one row
equal to the second value. -/
theorem setThreadPersona_delete_then_insert (db : DB) (u threadId p1 p2 : String)
    (hthread : (∃ t0, db.threads.filter (threadKey threadId u) = [t0]) ∨
      (∀ t ∈ db.threads, t.id ≠ threadId)) :
    ((setThreadPersona db (some u) threadId p1 noPersonaFaults).1 = .ok ⟨threadId, p1, u⟩ ∧
     ((setThreadPersona db (some u) threadId p1 noPersonaFaults).2.threadPersonas.filter
        (personaKey threadId u)) = [⟨threadId, p1, u⟩]) ∧
    ((setThreadPersona (setThreadPersona db (some u) threadId p1 noPersonaFaults).2
        (some u) threadId p2 noPersonaFaults).2.threadPersonas.filter
        (personaKey threadId u)) = [⟨threadId, p2, u⟩] := by
  have h1 := setThreadPersona_single db u threadId p1 hthread
  have h2 := setThreadPersona_single
    (setThreadPersona db (some u) threadId p1 noPersonaFaults).2 u threadId p2
    (Or.inl h1.2.2)
  exact ⟨⟨h1.1, h1.2.1⟩, h2.2.1⟩

theorem setThreadPersona_delete_then_insert_witness :
    ((setThreadPersona ⟨[], [], [], [], [], [], true⟩ (some "u1") "t1" "p1" noPersonaFaults).1
        = .ok ⟨"t1", "p1", "u1"⟩ ∧
     ((setThreadPersona ⟨[], [], [], [], [], [], true⟩ (some "u1") "t1" "p1"
        noPersonaFaults).2.threadPersonas.filter (personaKey "t1" "u1")) = [⟨"t1", "p1", "u1"⟩]) ∧
    ((setThreadPersona
        (setThreadPersona ⟨[], [], [], [], [], [], true⟩ (some "u1") "t1" "p1" noPersonaFaults).2
        (some "u1") "t1" "p2" noPersonaFaults).2.threadPersonas.filter (personaKey "t1" "u1"))
      = [⟨"t1", "p2", "u1"⟩] :=
  setThreadPersona_delete_then_insert ⟨[], [], [], [], [], [], true⟩ "u1" "t1" "p1" "p2"
    (Or.inr (by simp))

/-! ## createMessage helper lemmas -/

theorem isValidUUID_ne_empty (s : String) (h : isValidUUID s = true) : (s != "") = true := by
  by_cases hs : s = ""
  · subst hs
    exact absurd h (by decide)
  · simp [bne_iff_ne, hs]

theorem resolveMessageId_of_valid (s fresh : String) (h : isValidUUID s = true) :
    resolveMessageId (some s) fresh = s := by
  unfold resolveMessageId
  simp [h, isValidUUID_ne_empty s h]

theorem resolveMessageId_valid (mid : Option String) (fresh : String)
    (hfresh : isValidUUID fresh = true) : isValidUUID (resolveMessageId mid fresh) = true := by
  cases mid with
  | none => exact hfresh
  | some s =>
    simp only [resolveMessageId]
    by_cases hc : (s != "" && isValidUUID s) = true
    · rw [if_pos hc]
      rw [Bool.and_eq_true] at hc
      exact hc.2
    · rw [if_neg hc]
      exact hfresh

theorem upsertMessage_messages (db : DB) (p : MessagePayload) :
    (upsertMessage db p).messages = upsertMessagesList db.messages p := rfl

theorem upsertMessage_threads (db : DB) (p : MessagePayload) :
    (upsertMessage db p).threads = db.threads := rfl

theorem upsertMessage_fileAttachments (db : DB) (p : MessagePayload) :
    (upsertMessage db p).fileAttachments = db.fileAttachments := rfl

theorem touchThread_messages (db : DB) (threadId ts : String) :
    (touchThread db threadId ts).messages = db.messages := rfl

theorem touchThread_threads (db : DB) (threadId ts : String) :
    (touchThread db threadId ts).threads = touchThreadsList db.threads threadId ts := rfl

theorem touchThread_fileAttachments (db : DB) (threadId ts : String) :
    (touchThread db threadId ts).fileAttachments = db.fileAttachments := rfl

theorem insertAttachments_ok_messages (db : DB) (rows : List FileAttachmentRow) (db2 : DB)
    (h : insertAttachments db rows = .ok db2) : db2.messages = db.messages := by
  unfold insertAttachments at h
  split at h
  · cases h
  · cases h
    rfl

theorem insertAttachments_ok_threads (db : DB) (rows : List FileAttachmentRow) (db2 : DB)
    (h : insertAttachments db rows = .ok db2) : db2.threads = db.threads := by
  unfold insertAttachments at h
  split at h
  · cases h
  · cases h
    rfl

theorem insertMessageAttachments_messages (db : DB) (threadId messageId userId : String)
    (fileAtts : Option (List FileUploadResult)) (freshAttId : Nat → String) (now : String)
    (fault : Option StoreError) :
    (insertMessageAttachments db threadId messageId userId fileAtts freshAttId now
        fault).messages = db.messages := by
  unfold insertMessageAttachments
  rcases fileAtts with _ | atts
  · rfl
  · dsimp only
    by_cases h1 : 0 < atts.length
    · rw [if_pos h1]
      by_cases h2 : 0 < (attachmentRowsOf threadId messageId userId now atts freshAttId).length
      · rw [if_pos h2]
        cases fault with
        | some e => rfl
        | none =>
          cases hins : insertAttachments db
              (attachmentRowsOf threadId messageId userId now atts freshAttId) with
          | ok db2 => exact insertAttachments_ok_messages db _ db2 hins
          | error e => rfl
      · rw [if_neg h2]
    · rw [if_neg h1]

theorem insertMessageAttachments_threads (db : DB) (threadId messageId userId : String)
    (fileAtts : Option (List FileUploadResult)) (freshAttId : Nat → String) (now : String)
    (fault : Option StoreError) :
    (insertMessageAttachments db threadId messageId userId fileAtts freshAttId now
        fault).threads = db.threads := by
  unfold insertMessageAttachments
  rcases fileAtts with _ | atts
  · rfl
  · dsimp only
    by_cases h1 : 0 < atts.length
    · rw [if_pos h1]
      by_cases h2 : 0 < (attachmentRowsOf threadId messageId userId now atts freshAttId).length
      · rw [if_pos h2]
        cases fault with
        | some e => rfl
        | none =>
          cases hins : insertAttachments db
              (attachmentRowsOf threadId messageId userId now atts freshAttId) with
          | ok db2 => exact insertAttachments_ok_threads db _ db2 hins
          | error e => rfl
      · rw [if_neg h2]
    · rw [if_neg h1]

theorem insertMessageAttachments_fault (db : DB) (threadId messageId userId : String)
    (fileAtts : Option (List FileUploadResult)) (freshAttId : Nat → String) (now : String)
    (e : StoreError) :
    insertMessageAttachments db threadId messageId userId fileAtts freshAttId now (some e)
      = db := by
  unfold insertMessageAttachments
  rcases fileAtts with _ | atts
  · rfl
  · dsimp only
    by_cases h1 : 0 < atts.length
    · rw [if_pos h1]
      by_cases h2 : 0 < (attachmentRowsOf threadId messageId userId now atts freshAttId).length
      · rw [if_pos h2]
      · rw [if_neg h2]
    · rw [if_neg h1]

theorem insertMessageAttachments_success (db : DB) (threadId messageId userId : String)
    (atts : List FileUploadResult) (freshAttId : Nat → String) (now : String)
    (hn : 0 < atts.length)
    (hclash : ((attachmentRowsOf threadId messageId userId now atts freshAttId).any
        (fun r => db.fileAttachments.any (fun x => x.id == r.id))) = false)
    (hnd : ((attachmentRowsOf threadId messageId userId now atts freshAttId).map
        (fun r => r.id)).Nodup) :
    insertMessageAttachments db threadId messageId userId (some atts) freshAttId now none
      = { db with fileAttachments := db.fileAttachments
            ++ attachmentRowsOf threadId messageId userId now atts freshAttId } := by
  unfold insertMessageAttachments
  dsimp only
  rw [if_pos hn]
  by_cases h2 : 0 < (attachmentRowsOf threadId messageId userId now atts freshAttId).length
  · rw [if_pos h2]
    unfold insertAttachments
    rw [if_neg (by simp [hclash, hnd])]
  · rw [if_neg h2]
    have hz : attachmentRowsOf threadId messageId userId now atts freshAttId = [] :=
      List.length_eq_zero.mp (by omega)
    rw [hz]
    simp

theorem createMessageRest_eq (db : DB) (u threadId : String) (message : UIMessage)
    (fileAtts : Option (List FileUploadResult)) (freshMsgId : String)
    (freshAttId : Nat → String) (now : String) (f : Faults)
    (h2 : f.messageUpsert = none) (h4 : f.threadUpdate = none) :
    createMessageRest db u threadId message fileAtts freshMsgId freshAttId now f
      = (.ok (),
         touchThread
           (insertMessageAttachments
             (upsertMessage db
               { id := resolveMessageId message.id freshMsgId, thread_id := threadId,
                 user_id := u, parts := updatedPartsOf message fileAtts,
                 role := message.role, content := message.content,
                 created_at := message.createdAt.getD now })
             threadId (resolveMessageId message.id freshMsgId) u fileAtts freshAttId now
             f.attachmentInsert)
           threadId (message.createdAt.getD now)) := by
  unfold createMessageRest
  rw [h2, h4]

theorem createMessage_exists_case (db : DB) (u threadId : String) (message : UIMessage)
    (fileAtts : Option (List FileUploadResult)) (freshMsgId : String)
    (freshAttId : Nat → String) (now : String) (f : Faults) (t0 : ThreadRow)
    (h1 : f.threadCheck = none)
    (hex : db.threads.filter (threadKey threadId u) = [t0]) :
    createMessage db (some u) threadId message fileAtts freshMsgId freshAttId now f
      = createMessageRest db u threadId message fileAtts freshMsgId freshAttId now f := by
  simp [createMessage, withFault, h1, threadLookup, hex]

theorem createMessage_new_case (db : DB) (u threadId : String) (message : UIMessage)
    (fileAtts : Option (List FileUploadResult)) (freshMsgId : String)
    (freshAttId : Nat → String) (now : String) (f : Faults)
    (h1 : f.threadCheck = none) (h1b : f.threadInsert = none)
    (hno : ∀ t ∈ db.threads, t.id ≠ threadId) :
    createMessage db (some u) threadId message fileAtts freshMsgId freshAttId now f
      = createMessageRest
          { db with threads := db.threads ++ [⟨threadId, "New Chat", u, none⟩] }
          u threadId message fileAtts freshMsgId freshAttId now f := by
  simp [createMessage, withFault, h1, h1b, threadLookup,
    threads_filter_nil db.threads threadId u hno, pgrst116, insertThread,
    threads_any_false db.threads threadId hno]

theorem touchThreadsList_filter (l : List ThreadRow) (threadId u ts : String) :
    (touchThreadsList l threadId ts).filter (threadKey threadId u)
      = (l.filter (threadKey threadId u)).map
          (fun t => if t.id == threadId then { t with last_message_at := some ts } else t) := by
  unfold touchThreadsList
  apply filter_map_of_pred_inv
  intro t
  by_cases h : (t.id == threadId) = true
  · rw [if_pos h]
    rfl
  · rw [if_neg h]

theorem upsertMessagesList_count (l : List MessageRow) (p : MessagePayload)
    (hle : (l.filter (fun m => m.id == p.id)).length ≤ 1) :
    ((upsertMessagesList l p).filter (fun m => m.id == p.id)).length = 1 := by
  unfold upsertMessagesList
  by_cases hany : (l.any (fun m => m.id == p.id)) = true
  · rw [if_pos hany]
    rw [filter_map_of_pred_inv _ _ _ (fun m => by
      by_cases h : (m.id == p.id) = true
      · rw [if_pos h]
        rfl
      · rw [if_neg h])]
    rw [List.length_map]
    rw [List.any_eq_true] at hany
    obtain ⟨m, hm, hmid⟩ := hany
    have hmem : m ∈ l.filter (fun m => m.id == p.id) := List.mem_filter.mpr ⟨hm, hmid⟩
    have hpos : 0 < (l.filter (fun m => m.id == p.id)).length := by
      cases hfil : l.filter (fun m => m.id == p.id) with
      | nil => rw [hfil] at hmem; cases hmem
      | cons a tl => simp [hfil]
    omega
  · rw [if_neg hany]
    rw [List.filter_append]
    have hfil : l.filter (fun m => m.id == p.id) = [] := by
      rw [List.filter_eq_nil_iff]
      intro m hm
      rw [Bool.not_eq_true, List.any_eq_false] at hany
      exact hany m hm
    rw [hfil]
    simp [newMessageRow]

theorem upsertMessagesList_mem (l : List MessageRow) (p : MessagePayload) :
    ∃ r ∈ upsertMessagesList l p, r.id = p.id ∧ r.content = p.content ∧ r.role = p.role ∧
      r.thread_id = p.thread_id := by
  unfold upsertMessagesList
  by_cases hany : (l.any (fun m => m.id == p.id)) = true
  · rw [if_pos hany]
    rw [List.any_eq_true] at hany
    obtain ⟨m, hm, hmid⟩ := hany
    have hmid2 : m.id = p.id := by simpa using hmid
    refine ⟨applyMessagePayload p m, ?_, ?_⟩
    · exact List.mem_map.mpr ⟨m, hm, by rw [if_pos hmid]⟩
    · exact ⟨hmid2, rfl, rfl, rfl⟩
  · rw [if_neg hany]
    exact ⟨_, List.mem_append_right _ (List.mem_singleton.mpr rfl), rfl, rfl, rfl, rfl⟩

theorem createMessage_single (db : DB) (u threadId : String) (message : UIMessage)
    (fileAtts : Option (List FileUploadResult)) (freshMsgId : String)
    (freshAttId : Nat → String) (now : String)
    (hthread : (∃ t0, db.threads.filter (threadKey threadId u) = [t0]) ∨
      (∀ t ∈ db.threads, t.id ≠ threadId)) :
    (createMessage db (some u) threadId message fileAtts freshMsgId freshAttId now noFaults).1
        = .ok () ∧
    (createMessage db (some u) threadId message fileAtts freshMsgId freshAttId now
        noFaults).2.messages
      = upsertMessagesList db.messages
          { id := resolveMessageId message.id freshMsgId, thread_id := threadId, user_id := u,
            parts := updatedPartsOf message fileAtts, role := message.role,
            content := message.content, created_at := message.createdAt.getD now } ∧
    (∃ t1, (createMessage db (some u) threadId message fileAtts freshMsgId freshAttId now
        noFaults).2.threads.filter (threadKey threadId u) = [t1]) := by
  rcases hthread with ⟨t0, hex⟩ | hno
  · rw [createMessage_exists_case db u threadId message fileAtts freshMsgId freshAttId now
        noFaults t0 rfl hex,
      createMessageRest_eq db u threadId message fileAtts freshMsgId freshAttId now
        noFaults rfl rfl]
    dsimp only
    refine ⟨rfl, ?_, ?_⟩
    · rw [touchThread_messages, insertMessageAttachments_messages, upsertMessage_messages]
    · rw [touchThread_threads, insertMessageAttachments_threads, upsertMessage_threads,
        touchThreadsList_filter, hex]
      exact ⟨_, rfl⟩
  · rw [createMessage_new_case db u threadId message fileAtts freshMsgId freshAttId now
        noFaults rfl rfl hno,
      createMessageRest_eq _ u threadId message fileAtts freshMsgId freshAttId now
        noFaults rfl rfl]
    dsimp only
    refine ⟨rfl, ?_, ?_⟩
    · rw [touchThread_messages, insertMessageAttachments_messages, upsertMessage_messages]
    · rw [touchThread_threads, insertMessageAttachments_threads, upsertMessage_threads,
        touchThreadsList_filter]
      have hfil2 : (db.threads ++ [(⟨threadId, "New Chat", u, none⟩ : ThreadRow)]).filter
          (threadKey threadId u) = [⟨threadId, "New Chat", u, none⟩] := by
        rw [List.filter_append, threads_filter_nil db.threads threadId u hno]
        simp [threadKey]
      rw [show ({ db with threads := db.threads ++ [⟨threadId, "New Chat", u, none⟩] } : DB).threads
          = db.threads ++ [⟨threadId, "New Chat", u, none⟩] from rfl, hfil2]
      exact ⟨_, rfl⟩

theorem touchThreadsList_id (l : List ThreadRow) (threadId ts : String)
    (hno : ∀ t ∈ l, t.id ≠ threadId) : touchThreadsList l threadId ts = l := by
  unfold touchThreadsList
  induction l with
  | nil => rfl
  | cons a tl ih =>
    have ha : (a.id == threadId) = false := by
      simp [hno a (List.mem_cons_self a tl)]
    have ih2 := ih (fun t ht => hno t (List.mem_cons_of_mem a ht))
    rw [List.map_cons, if_neg (by simp [ha]), ih2]

theorem touchThreadsList_length (l : List ThreadRow) (threadId ts : String) :
    (touchThreadsList l threadId ts).length = l.length := by
  unfold touchThreadsList
  rw [List.length_map]

theorem touchThreadsList_append_new (l : List ThreadRow) (threadId u ts : String)
    (hno : ∀ t ∈ l, t.id ≠ threadId) :
    touchThreadsList (l ++ [⟨threadId, "New Chat", u, none⟩]) threadId ts
      = l ++ [⟨threadId, "New Chat", u, some ts⟩] := by
  unfold touchThreadsList
  rw [List.map_append]
  congr 1
  · exact touchThreadsList_id l threadId ts hno
  · simp

theorem attachmentRowsOf_length (threadId messageId userId now : String)
    (atts : List FileUploadResult) (freshAttId : Nat → String) :
    (attachmentRowsOf threadId messageId userId now atts freshAttId).length
      = (atts.filter attHasUrl).length := by
  unfold attachmentRowsOf
  rw [List.length_map, List.enum_length]

theorem attachmentRowsOf_message_id (threadId messageId userId now : String)
    (atts : List FileUploadResult) (freshAttId : Nat → String) :
    ∀ row ∈ attachmentRowsOf threadId messageId userId now atts freshAttId,
      row.message_id = messageId := by
  intro row hrow
  unfold attachmentRowsOf at hrow
  obtain ⟨p, hp, rfl⟩ := List.mem_map.mp hrow
  rfl

/-! ## C3 -/

/-- C3: the stored message row's id is a well-formed UUID: a valid
caller-supplied id is used unchanged, an absent or malformed id is replaced
by the freshly generated UUID value, and the operation succeeds either way. -/
theorem createMessage_uuid_spec (db : DB) (u threadId : String) (message : UIMessage)
    (fileAtts : Option (List FileUploadResult)) (freshMsgId : String)
    (freshAttId : Nat → String) (now : String)
    (hfresh : isValidUUID freshMsgId = true)
    (hthread : (∃ t0, db.threads.filter (threadKey threadId u) = [t0]) ∨
      (∀ t ∈ db.threads, t.id ≠ threadId)) :
    (createMessage db (some u) threadId message fileAtts freshMsgId freshAttId now
        noFaults).1 = .ok () ∧
    ∃ r ∈ (createMessage db (some u) threadId message fileAtts freshMsgId freshAttId now
        noFaults).2.messages,
      r.id = resolveMessageId message.id freshMsgId ∧ isValidUUID r.id = true ∧
      ∀ mid, message.id = some mid → isValidUUID mid = true → r.id = mid := by
  obtain ⟨h1, h2, h3⟩ := createMessage_single db u threadId message fileAtts freshMsgId
    freshAttId now hthread
  refine ⟨h1, ?_⟩
  rw [h2]
  obtain ⟨r, hr, hid, hc, hro, hth⟩ := upsertMessagesList_mem db.messages
    { id := resolveMessageId message.id freshMsgId, thread_id := threadId, user_id := u,
      parts := updatedPartsOf message fileAtts, role := message.role,
      content := message.content, created_at := message.createdAt.getD now }
  refine ⟨r, hr, hid, ?_, ?_⟩
  · rw [hid]
    exact resolveMessageId_valid message.id freshMsgId hfresh
  · intro mid hmid hv
    rw [hid, hmid]
    exact resolveMessageId_of_valid mid freshMsgId hv

theorem createMessage_uuid_spec_witness :
    isValidUUID "123e4567-e89b-12d3-a456-426614174000" = true ∧
    ((createMessage ⟨[], [], [], [], [], [], true⟩ (some "u1") "t1"
        ⟨some "zzz", "user", "hi", none, none⟩ none "123e4567-e89b-12d3-a456-426614174000"
        (fun _ => "a1") "2026-01-01" noFaults).1 = .ok () ∧
     ∃ r ∈ (createMessage ⟨[], [], [], [], [], [], true⟩ (some "u1") "t1"
        ⟨some "zzz", "user", "hi", none, none⟩ none "123e4567-e89b-12d3-a456-426614174000"
        (fun _ => "a1") "2026-01-01" noFaults).2.messages,
       r.id = resolveMessageId (some "zzz") "123e4567-e89b-12d3-a456-426614174000" ∧
       isValidUUID r.id = true ∧
       ∀ mid, (some "zzz" : Option String) = some mid → isValidUUID mid = true →
         r.id = mid) :=
  ⟨by decide,
   createMessage_uuid_spec ⟨[], [], [], [], [], [], true⟩ "u1" "t1"
     ⟨some "zzz", "user", "hi", none, none⟩ none "123e4567-e89b-12d3-a456-426614174000"
     (fun _ => "a1") "2026-01-01" (by decide) (Or.inr (by simp))⟩

/-! ## C2 -/

/-- C2 counterexample: a thread row with the requested id exists but belongs
to another user, so the owner-scoped lookup reports not-found; the claim as
stated then demands that exactly one minimal thread row be inserted followed
by the message row, but the insert hits the uniqueness constraint on the id,
the error propagates, and neither a thread row nor a message row is written. -/
theorem createMessage_thread_conflict_cex :
    threadLookup ⟨[⟨"t1", "Existing", "u2", none⟩], [], [], [], [], [], true⟩ "t1" "u1"
        = .error pgrst116 ∧
    createMessage ⟨[⟨"t1", "Existing", "u2", none⟩], [], [], [], [], [], true⟩ (some "u1") "t1"
        ⟨some "m1", "user", "hello", none, none⟩ none "f1" (fun _ => "a1") "now" noFaults
      = (.error (.store dupKeyErr),
         ⟨[⟨"t1", "Existing", "u2", none⟩], [], [], [], [], [], true⟩) :=
  ⟨rfl, rfl⟩

/-- C2 (amended): for an authenticated createMessage call with no injected
store faults: when no thread row with the given id exists at all, exactly one
minimal thread row is inserted and the message row is then upserted; when the
thread row exists for this user, no thread insert is performed; and any
thread-lookup error other than the not-found code propagates with no row
written.  A row with that id owned by a different user makes the minimal
insert fail on the id uniqueness constraint instead (see the counterexample). -/
theorem createMessage_thread_ensure_spec (db : DB) (u threadId : String)
    (message : UIMessage) (fileAtts : Option (List FileUploadResult)) (freshMsgId : String)
    (freshAttId : Nat → String) (now : String) :
    ((∀ t ∈ db.threads, t.id ≠ threadId) →
      (createMessage db (some u) threadId message fileAtts freshMsgId freshAttId now
          noFaults).1 = .ok () ∧
      (createMessage db (some u) threadId message fileAtts freshMsgId freshAttId now
          noFaults).2.threads
        = db.threads ++ [⟨threadId, "New Chat", u, some (message.createdAt.getD now)⟩] ∧
      ∃ r ∈ (createMessage db (some u) threadId message fileAtts freshMsgId freshAttId now
          noFaults).2.messages, r.id = resolveMessageId message.id freshMsgId) ∧
    ((∃ t0, db.threads.filter (threadKey threadId u) = [t0]) →
      (createMessage db (some u) threadId message fileAtts freshMsgId freshAttId now
          noFaults).1 = .ok () ∧
      (createMessage db (some u) threadId message fileAtts freshMsgId freshAttId now
          noFaults).2.threads.length = db.threads.length) ∧
    (∀ e : StoreError, e.code ≠ "PGRST116" →
      createMessage db (some u) threadId message fileAtts freshMsgId freshAttId now
          ⟨some e, none, none, none, none⟩ = (.error (.store e), db)) := by
  refine ⟨?_, ?_, ?_⟩
  · intro hno
    obtain ⟨h1, h2, h3⟩ := createMessage_single db u threadId message fileAtts freshMsgId
      freshAttId now (Or.inr hno)
    refine ⟨h1, ?_, ?_⟩
    · rw [createMessage_new_case db u threadId message fileAtts freshMsgId freshAttId now
          noFaults rfl rfl hno,
        createMessageRest_eq _ u threadId message fileAtts freshMsgId freshAttId now
          noFaults rfl rfl]
      dsimp only
      rw [touchThread_threads, insertMessageAttachments_threads, upsertMessage_threads]
      exact touchThreadsList_append_new db.threads threadId u (message.createdAt.getD now) hno
    · rw [h2]
      obtain ⟨r, hr, hid, hrest⟩ := upsertMessagesList_mem db.messages
        { id := resolveMessageId message.id freshMsgId, thread_id := threadId, user_id := u,
          parts := updatedPartsOf message fileAtts, role := message.role,
          content := message.content, created_at := message.createdAt.getD now }
      exact ⟨r, hr, hid⟩
  · intro hex
    obtain ⟨t0, hex0⟩ := hex
    obtain ⟨h1, h2, h3⟩ := createMessage_single db u threadId message fileAtts freshMsgId
      freshAttId now (Or.inl ⟨t0, hex0⟩)
    refine ⟨h1, ?_⟩
    rw [createMessage_exists_case db u threadId message fileAtts freshMsgId freshAttId now
        noFaults t0 rfl hex0,
      createMessageRest_eq db u threadId message fileAtts freshMsgId freshAttId now
        noFaults rfl rfl]
    dsimp only
    rw [touchThread_threads, insertMessageAttachments_threads, upsertMessage_threads]
    exact touchThreadsList_length db.threads threadId (message.createdAt.getD now)
  · intro e he
    simp [createMessage, withFault, he]

theorem createMessage_thread_ensure_spec_witness :
    ((createMessage ⟨[], [], [], [], [], [], true⟩ (some "u1") "t1"
        ⟨some "m1", "user", "hello", none, none⟩ none "f1" (fun _ => "a1") "now"
        noFaults).1 = .ok () ∧
     (createMessage ⟨[], [], [], [], [], [], true⟩ (some "u1") "t1"
        ⟨some "m1", "user", "hello", none, none⟩ none "f1" (fun _ => "a1") "now"
        noFaults).2.threads = [] ++ [⟨"t1", "New Chat", "u1", some "now"⟩] ∧
     ∃ r ∈ (createMessage ⟨[], [], [], [], [], [], true⟩ (some "u1") "t1"
        ⟨some "m1", "user", "hello", none, none⟩ none "f1" (fun _ => "a1") "now"
        noFaults).2.messages, r.id = resolveMessageId (some "m1") "f1") ∧
    createMessage ⟨[], [], [], [], [], [], true⟩ (some "u1") "t1"
        ⟨some "m1", "user", "hello", none, none⟩ none "f1" (fun _ => "a1") "now"
        ⟨some ⟨"XX000", "boom"⟩, none, none, none, none⟩
      = (.error (.store ⟨"XX000", "boom"⟩), ⟨[], [], [], [], [], [], true⟩) :=
  ⟨(createMessage_thread_ensure_spec ⟨[], [], [], [], [], [], true⟩ "u1" "t1"
      ⟨some "m1", "user", "hello", none, none⟩ none "f1" (fun _ => "a1") "now").1
      (by simp),
   (createMessage_thread_ensure_spec ⟨[], [], [], [], [], [], true⟩ "u1" "t1"
      ⟨some "m1", "user", "hello", none, none⟩ none "f1" (fun _ => "a1") "now").2.2
      ⟨"XX000", "boom"⟩ (by decide)⟩

/-! ## C1 -/

/-- C1: with a valid caller-supplied UUID id, calling createMessage twice
with the same id and content succeeds both times and leaves exactly one
stored message row with that id: the upsert replaces rather than duplicating
or raising a conflict error. -/
theorem createMessage_idempotent_upsert (db : DB) (u threadId mid : String)
    (message : UIMessage) (fileAtts : Option (List FileUploadResult)) (freshMsgId : String)
    (freshAttId : Nat → String) (now : String)
    (hid : message.id = some mid) (hvalid : isValidUUID mid = true)
    (hthread : (∃ t0, db.threads.filter (threadKey threadId u) = [t0]) ∨
      (∀ t ∈ db.threads, t.id ≠ threadId))
    (hcount : (db.messages.filter (fun m => m.id == mid)).length ≤ 1) :
    (createMessage db (some u) threadId message fileAtts freshMsgId freshAttId now
        noFaults).1 = .ok () ∧
    (createMessage (createMessage db (some u) threadId message fileAtts freshMsgId freshAttId
        now noFaults).2 (some u) threadId message fileAtts freshMsgId freshAttId now
        noFaults).1 = .ok () ∧
    ((createMessage (createMessage db (some u) threadId message fileAtts freshMsgId freshAttId
        now noFaults).2 (some u) threadId message fileAtts freshMsgId freshAttId now
        noFaults).2.messages.filter (fun m => m.id == mid)).length = 1 := by
  have hres : resolveMessageId message.id freshMsgId = mid := by
    rw [hid]
    exact resolveMessageId_of_valid mid freshMsgId hvalid
  obtain ⟨h1, h2, h3⟩ := createMessage_single db u threadId message fileAtts freshMsgId
    freshAttId now hthread
  obtain ⟨g1, g2, g3⟩ := createMessage_single
    (createMessage db (some u) threadId message fileAtts freshMsgId freshAttId now noFaults).2
    u threadId message fileAtts freshMsgId freshAttId now (Or.inl h3)
  refine ⟨h1, g1, ?_⟩
  rw [g2, h2, hres]
  have hcount1 := upsertMessagesList_count db.messages
    { id := mid, thread_id := threadId, user_id := u,
      parts := updatedPartsOf message fileAtts, role := message.role,
      content := message.content, created_at := message.createdAt.getD now } hcount
  exact upsertMessagesList_count
    (upsertMessagesList db.messages
      { id := mid, thread_id := threadId, user_id := u,
        parts := updatedPartsOf message fileAtts, role := message.role,
        content := message.content, created_at := message.createdAt.getD now })
    { id := mid, thread_id := threadId, user_id := u,
      parts := updatedPartsOf message fileAtts, role := message.role,
      content := message.content, created_at := message.createdAt.getD now } hcount1.le

theorem createMessage_idempotent_upsert_witness :
    isValidUUID "123e4567-e89b-12d3-a456-426614174000" = true ∧
    ((createMessage ⟨[], [], [], [], [], [], true⟩ (some "u1") "t1"
        ⟨some "123e4567-e89b-12d3-a456-426614174000", "user", "hello", none, none⟩ none "f1"
        (fun _ => "a1") "now" noFaults).1 = .ok () ∧
     (createMessage (createMessage ⟨[], [], [], [], [], [], true⟩ (some "u1") "t1"
        ⟨some "123e4567-e89b-12d3-a456-426614174000", "user", "hello", none, none⟩ none "f1"
        (fun _ => "a1") "now" noFaults).2 (some "u1") "t1"
        ⟨some "123e4567-e89b-12d3-a456-426614174000", "user", "hello", none, none⟩ none "f1"
        (fun _ => "a1") "now" noFaults).1 = .ok () ∧
     ((createMessage (createMessage ⟨[], [], [], [], [], [], true⟩ (some "u1") "t1"
        ⟨some "123e4567-e89b-12d3-a456-426614174000", "user", "hello", none, none⟩ none "f1"
        (fun _ => "a1") "now" noFaults).2 (some "u1") "t1"
        ⟨some "123e4567-e89b-12d3-a456-426614174000", "user", "hello", none, none⟩ none "f1"
        (fun _ => "a1") "now" noFaults).2.messages.filter
        (fun m => m.id == "123e4567-e89b-12d3-a456-426614174000")).length = 1) :=
  ⟨by decide,
   createMessage_idempotent_upsert ⟨[], [], [], [], [], [], true⟩ "u1" "t1"
     "123e4567-e89b-12d3-a456-426614174000"
     ⟨some "123e4567-e89b-12d3-a456-426614174000", "user", "hello", none, none⟩ none "f1"
     (fun _ => "a1") "now" rfl (by decide) (Or.inr (by simp)) (by decide)⟩

/-! ## C9 -/

/-- C9: attachments lacking any URL are filtered out and never inserted;
when the batch insert succeeds, exactly one file-attachment row per
URL-bearing attachment is appended, each referencing the resolved message
id; and an attachment-insert failure leaves the already-upserted message row
in place and does not make createMessage fail. -/
theorem createMessage_attachments_spec (db : DB) (u threadId : String) (message : UIMessage)
    (atts : List FileUploadResult) (freshMsgId : String) (freshAttId : Nat → String)
    (now : String) (t0 : ThreadRow)
    (hex : db.threads.filter (threadKey threadId u) = [t0])
    (hn : 0 < atts.length) :
    (((attachmentRowsOf threadId (resolveMessageId message.id freshMsgId) u now atts
          freshAttId).any (fun r => db.fileAttachments.any (fun x => x.id == r.id))) = false →
     ((attachmentRowsOf threadId (resolveMessageId message.id freshMsgId) u now atts
          freshAttId).map (fun r => r.id)).Nodup →
     (createMessage db (some u) threadId message (some atts) freshMsgId freshAttId now
         noFaults).1 = .ok () ∧
     (createMessage db (some u) threadId message (some atts) freshMsgId freshAttId now
         noFaults).2.fileAttachments
       = db.fileAttachments ++ attachmentRowsOf threadId
           (resolveMessageId message.id freshMsgId) u now atts freshAttId ∧
     (attachmentRowsOf threadId (resolveMessageId message.id freshMsgId) u now atts
         freshAttId).length = (atts.filter attHasUrl).length ∧
     ∀ row ∈ attachmentRowsOf threadId (resolveMessageId message.id freshMsgId) u now atts
         freshAttId, row.message_id = resolveMessageId message.id freshMsgId) ∧
    (∀ e : StoreError,
      (createMessage db (some u) threadId message (some atts) freshMsgId freshAttId now
          ⟨none, none, none, some e, none⟩).1 = .ok () ∧
      (createMessage db (some u) threadId message (some atts) freshMsgId freshAttId now
          ⟨none, none, none, some e, none⟩).2.fileAttachments = db.fileAttachments ∧
      ∃ r ∈ (createMessage db (some u) threadId message (some atts) freshMsgId freshAttId now
          ⟨none, none, none, some e, none⟩).2.messages,
        r.id = resolveMessageId message.id freshMsgId) := by
  constructor
  · intro hclash hnd
    rw [createMessage_exists_case db u threadId message (some atts) freshMsgId freshAttId now
        noFaults t0 rfl hex,
      createMessageRest_eq db u threadId message (some atts) freshMsgId freshAttId now
        noFaults rfl rfl]
    dsimp only [noFaults]
    refine ⟨rfl, ?_, attachmentRowsOf_length _ _ _ _ _ _,
      attachmentRowsOf_message_id _ _ _ _ _ _⟩
    rw [touchThread_fileAttachments,
      insertMessageAttachments_success
        (upsertMessage db
          { id := resolveMessageId message.id freshMsgId, thread_id := threadId, user_id := u,
            parts := updatedPartsOf message (some atts), role := message.role,
            content := message.content, created_at := message.createdAt.getD now })
        threadId (resolveMessageId message.id freshMsgId) u atts freshAttId now hn hclash hnd]
    rfl
  · intro e
    rw [createMessage_exists_case db u threadId message (some atts) freshMsgId freshAttId now
        ⟨none, none, none, some e, none⟩ t0 rfl hex,
      createMessageRest_eq db u threadId message (some atts) freshMsgId freshAttId now
        ⟨none, none, none, some e, none⟩ rfl rfl]
    dsimp only
    refine ⟨rfl, ?_, ?_⟩
    · rw [touchThread_fileAttachments, insertMessageAttachments_fault]
      rfl
    · rw [touchThread_messages, insertMessageAttachments_fault, upsertMessage_messages]
      obtain ⟨r, hr, hid, hrest⟩ := upsertMessagesList_mem db.messages
        { id := resolveMessageId message.id freshMsgId, thread_id := threadId, user_id := u,
          parts := updatedPartsOf message (some atts), role := message.role,
          content := message.content, created_at := message.createdAt.getD now }
      exact ⟨r, hr, hid⟩

theorem createMessage_attachments_spec_witness :
    (createMessage ⟨[⟨"t1", "T", "u1", none⟩], [], [], [], [], [], true⟩ (some "u1") "t1"
        ⟨none, "user", "hi", none, none⟩
        (some [⟨some "fa1", "f.txt", some "text/plain", some 5, some 5, some "http:x", none,
          none, some "data", none⟩])
        "f1" (fun _ => "ga1") "now" noFaults).1 = .ok () ∧
    (createMessage ⟨[⟨"t1", "T", "u1", none⟩], [], [], [], [], [], true⟩ (some "u1") "t1"
        ⟨none, "user", "hi", none, none⟩
        (some [⟨some "fa1", "f.txt", some "text/plain", some 5, some 5, some "http:x", none,
          none, some "data", none⟩])
        "f1" (fun _ => "ga1") "now" noFaults).2.fileAttachments
      = [] ++ attachmentRowsOf "t1" (resolveMessageId none "f1") "u1" "now"
          [⟨some "fa1", "f.txt", some "text/plain", some 5, some 5, some "http:x", none,
            none, some "data", none⟩] (fun _ => "ga1") ∧
    (createMessage ⟨[⟨"t1", "T", "u1", none⟩], [], [], [], [], [], true⟩ (some "u1") "t1"
        ⟨none, "user", "hi", none, none⟩
        (some [⟨some "fa1", "f.txt", some "text/plain", some 5, some 5, some "http:x", none,
          none, some "data", none⟩])
        "f1" (fun _ => "ga1") "now" ⟨none, none, none, some ⟨"XX000", "boom"⟩, none⟩).1
      = .ok () := by
  have h := (createMessage_attachments_spec ⟨[⟨"t1", "T", "u1", none⟩], [], [], [], [], [], true⟩
    "u1" "t1" ⟨none, "user", "hi", none, none⟩
    [⟨some "fa1", "f.txt", some "text/plain", some 5, some 5, some "http:x", none,
      none, some "data", none⟩]
    "f1" (fun _ => "ga1") "now" ⟨"t1", "T", "u1", none⟩ (by decide) (by decide))
  have h1 := h.1 (by decide) (by decide)
  exact ⟨h1.1, h1.2.1, (h.2 ⟨"XX000", "boom"⟩).1⟩

end T3Chat

